import Mathlib

/-!
Shallow embedding of `src/niftysentcalc.py` (Nifty 50 pre-market sentiment
analyzer).  Market values are modelled as rationals (`ℚ`), point scores as
integers (`ℤ`).  The scoring helpers, the aggregation/classification step,
the special-condition flags and the report-rendering branch of the
`if submitted:` block are translated directly from the source.
-/

namespace NiftySent

/-- The percentage change computed inside `classify_market_opening`
    (`pct_change = (gift_nifty_value - previous_close) / previous_close * 100`). -/
def pct_change (previous_close gift_nifty_value : ℚ) : ℚ :=
  (gift_nifty_value - previous_close) / previous_close * 100

/-- Translation of `classify_market_opening` from the source: returns the opening label and
    its point contribution; reference 0 yields the `("Data Error", 0)` sentinel. -/
def classify_market_opening (previous_close gift_nifty_value : ℚ) : String × ℤ :=
  if previous_close = 0 then ("Data Error", 0)
  else if |pct_change previous_close gift_nifty_value| < 0.2 then ("Flat Opening", 0)
  else if |pct_change previous_close gift_nifty_value| ≤ 0.75 then
    (if pct_change previous_close gift_nifty_value > 0 then ("Gap Up Opening", 1)
     else ("Gap Down Opening", -1))
  else
    (if pct_change previous_close gift_nifty_value > 0 then ("Huge Gap Up Opening", 2)
     else ("Huge Gap Down Opening", -2))

/-- Translation of `get_us_individual_points` from the source. -/
def get_us_individual_points (change_pct : ℚ) : ℤ :=
  if change_pct > 0.2 then 1
  else if change_pct < -0.2 then -1
  else 0

/-- Translation of `get_asian_individual_points` from the source. -/
def get_asian_individual_points (change_pct : ℚ) : ℤ :=
  if change_pct > 0.2 then 1
  else if change_pct < -0.2 then -1
  else 0

/-- Translation of `india_vix_points` from the source. -/
def india_vix_points (vix_level : ℚ) : ℤ :=
  if vix_level = 0 then 0
  else if vix_level > 22 then -2
  else if vix_level < 14 then 1
  else 0

/-- Translation of `cboe_vix_points` from the source. -/
def cboe_vix_points (cboe_vix_change_pct : ℚ) : ℤ :=
  if cboe_vix_change_pct > 7 then -1
  else if cboe_vix_change_pct < -7 then 1
  else 0

/-- Translation of `pcr_points` from the source (the trailing `return 0` is kept even though
    it is unreachable). -/
def pcr_points (pcr_value : ℚ) : ℤ :=
  if pcr_value = 0 then 0
  else if pcr_value > 1.7 then 1
  else if 1.3 < pcr_value ∧ pcr_value ≤ 1.7 then -1
  else if 0.7 ≤ pcr_value ∧ pcr_value ≤ 1.3 then 0
  else if 0.5 ≤ pcr_value ∧ pcr_value < 0.7 then 1
  else if pcr_value < 0.5 then -1
  else 0

/-- Translation of `fii_dii_points` from the source: threshold 1000 Cr for FII, 750 Cr for DII. -/
def fii_dii_points (net_flow_crores : ℚ) (is_fii : Bool := true) : ℤ :=
  if net_flow_crores > (if is_fii then 1000 else 750) then 1
  else if net_flow_crores < -(if is_fii then (1000 : ℚ) else 750) then -1
  else 0

/-- Translation of `crude_oil_points` from the source (sign-inverted band ±1.5). -/
def crude_oil_points (change_pct : ℚ) : ℤ :=
  if change_pct > 1.5 then -1
  else if change_pct < -1.5 then 1
  else 0

/-- Translation of `gold_points` from the source (sign-inverted band ±1.0). -/
def gold_points (change_pct : ℚ) : ℤ :=
  if change_pct > 1.0 then -1
  else if change_pct < -1.0 then 1
  else 0

/-- Translation of `usd_inr_fx_points` from the source (sign-inverted band ±0.25). -/
def usd_inr_fx_points (change_pct : ℚ) : ℤ :=
  if change_pct > 0.25 then -1
  else if change_pct < -0.25 then 1
  else 0

/-- Translation of `aggregate_sentiment` from the source: composite score → sentiment label. -/
def aggregate_sentiment (score : ℤ) : String :=
  if score ≥ 6 then "Strongly Bullish"
  else if score ≥ 2 then "Mildly Bullish"
  else if score ≤ -6 then "Strongly Bearish"
  else if score ≤ -2 then "Mildly Bearish"
  else "Neutral / Range-bound"

/-- The `{"Up": _, "Side": _, "Down": _}` dictionaries returned by
    `scenario_probs`. -/
structure ScenarioProbs where
  up : ℤ
  side : ℤ
  down : ℤ
deriving DecidableEq, Repr

/-- Translation of `scenario_probs` from the source: composite score → probability triple. -/
def scenario_probs (score : ℤ) : ScenarioProbs :=
  if score ≥ 6 then ⟨70, 20, 10⟩
  else if score ≥ 2 then ⟨55, 30, 15⟩
  else if score ≤ -6 then ⟨10, 20, 70⟩
  else if score ≤ -2 then ⟨15, 30, 55⟩
  else ⟨33, 34, 33⟩

/-- One form submission: the numeric fields of the Streamlit form. -/
structure Input where
  nifty_prev_close : ℚ
  futures_prev_close : ℚ
  gift_nifty_current : ℚ
  dji_change_pct : ℚ
  sp500_change_pct : ℚ
  nasdaq_change_pct : ℚ
  nikkei_change_pct : ℚ
  hangseng_change_pct : ℚ
  cboe_vix_change_pct : ℚ
  crude_oil_change_pct : ℚ
  india_vix_level : ℚ
  gold_change_pct : ℚ
  usd_inr_change_pct : ℚ
  fii_net_crores : ℚ
  dii_net_crores : ℚ
  nifty_pcr_value : ℚ
deriving Repr

/-- Sum `pts_common_factors`: sum of every factor score except the opening-gap
    points, exactly as in the `if submitted:` block. -/
def pts_common_factors (inp : Input) : ℤ :=
  (get_us_individual_points inp.dji_change_pct
     + get_us_individual_points inp.sp500_change_pct
     + get_us_individual_points inp.nasdaq_change_pct)
  + (get_asian_individual_points inp.nikkei_change_pct
     + get_asian_individual_points inp.hangseng_change_pct)
  + gold_points inp.gold_change_pct
  + cboe_vix_points inp.cboe_vix_change_pct
  + india_vix_points inp.india_vix_level
  + pcr_points inp.nifty_pcr_value
  + fii_dii_points inp.fii_net_crores true
  + fii_dii_points inp.dii_net_crores false
  + crude_oil_points inp.crude_oil_change_pct
  + usd_inr_fx_points inp.usd_inr_change_pct

/-- Pair `spot_opening_classification, spot_opening_pts = classify_market_opening(nifty_prev_close, gift_nifty_current)`. -/
def spot_opening (inp : Input) : String × ℤ :=
  classify_market_opening inp.nifty_prev_close inp.gift_nifty_current

/-- Pair `futures_opening_classification, futures_opening_pts = classify_market_opening(futures_prev_close, gift_nifty_current)`. -/
def futures_opening (inp : Input) : String × ℤ :=
  classify_market_opening inp.futures_prev_close inp.gift_nifty_current

/-- Score `spot_final_score = spot_opening_pts + pts_common_factors`. -/
def spot_final_score (inp : Input) : ℤ :=
  (spot_opening inp).2 + pts_common_factors inp

/-- Score `futures_final_score = futures_opening_pts + pts_common_factors`. -/
def futures_final_score (inp : Input) : ℤ :=
  (futures_opening inp).2 + pts_common_factors inp

/-- Special condition `dii_buying_high_vix = (dii_net_crores > 0 and india_vix_level > 22)`. -/
def dii_buying_high_vix (inp : Input) : Prop :=
  inp.dii_net_crores > 0 ∧ inp.india_vix_level > 22

/-- Special condition `fii_selling_low_pcr = (fii_net_crores < -750 and nifty_pcr_value < 0.7)`. -/
def fii_selling_low_pcr (inp : Input) : Prop :=
  inp.fii_net_crores < -750 ∧ inp.nifty_pcr_value < 0.7

/-- Special condition `pcr_high_vix_high = (nifty_pcr_value > 1.7 and india_vix_level > 20)`. -/
def pcr_high_vix_high (inp : Input) : Prop :=
  inp.nifty_pcr_value > 1.7 ∧ inp.india_vix_level > 20

instance (inp : Input) : Decidable (dii_buying_high_vix inp) := by
  unfold dii_buying_high_vix; infer_instance

instance (inp : Input) : Decidable (fii_selling_low_pcr inp) := by
  unfold fii_selling_low_pcr; infer_instance

instance (inp : Input) : Decidable (pcr_high_vix_high inp) := by
  unfold pcr_high_vix_high; infer_instance

/-- Number of special-condition flags that are true for a submission. -/
def flagCount (inp : Input) : ℕ :=
  (if dii_buying_high_vix inp then 1 else 0)
  + (if fii_selling_low_pcr inp then 1 else 0)
  + (if pcr_high_vix_high inp then 1 else 0)

/-- The semantic content handed to `build_report` for one analysis: opening
    label, sentiment label, composite score and scenario probabilities. -/
structure Report where
  tag_open : String
  tag_sent : String
  score : ℤ
  probs : ScenarioProbs
deriving DecidableEq, Repr

/-- The report built for the spot analysis. -/
def spotReport (inp : Input) : Report :=
  ⟨(spot_opening inp).1, aggregate_sentiment (spot_final_score inp),
    spot_final_score inp, scenario_probs (spot_final_score inp)⟩

/-- The report built for the futures analysis. -/
def futuresReport (inp : Input) : Report :=
  ⟨(futures_opening inp).1, aggregate_sentiment (futures_final_score inp),
    futures_final_score inp, scenario_probs (futures_final_score inp)⟩

/-- The reports rendered by the `if submitted:` block: one consolidated report
    when spot and futures agree on sentiment and opening classification,
    otherwise the spot report followed by the futures report.  `build_report`
    is called unconditionally on each element. -/
def renderedReports (inp : Input) : List Report :=
  if aggregate_sentiment (spot_final_score inp) = aggregate_sentiment (futures_final_score inp)
      ∧ (spot_opening inp).1 = (futures_opening inp).1 then
    [spotReport inp]
  else
    [spotReport inp, futuresReport inp]

/-- Concrete submission used for end-to-end checks: spot reference 22000,
    GIFT Nifty 22100, every other signal at its neutral value 0. -/
def neutralInput : Input := ⟨22000, 22000, 22100, 0, 0, 0, 0, 0, 0, 0, 0, 0, 0, 0, 0, 0⟩

/-- Concrete submission with a zero spot reference (`nifty_prev_close = 0`). -/
def zeroRefInput : Input := ⟨0, 22050, 22100, 0, 0, 0, 0, 0, 0, 0, 0, 0, 0, 0, 0, 0⟩

/-- Concrete submission driving every factor to its most negative score. -/
def minInput : Input :=
  ⟨22000, 22000, 21000, -1, -1, -1, -1, -1, 8, 2, 23, 2, 1, -1500, -1000, 0.3⟩

/-- Concrete submission driving every factor to its most positive score. -/
def maxInput : Input :=
  ⟨22000, 22000, 23000, 1, 1, 1, 1, 1, -8, -2, 13, -2, -1, 1500, 1000, 1.8⟩

/-- Concrete submission in the bear-trap configuration: FII net −1000 Cr,
    PCR 0.5, DII net 0, India VIX 0. -/
def bearTrapInput : Input := ⟨22000, 22000, 22000, 0, 0, 0, 0, 0, 0, 0, 0, 0, 0, -1000, 0, 0.5⟩

/-- Characterisation of the shared `if x > b then p else if x < -b then n else 0`
    shape of the symmetric-band scorers: the non-zero points are produced
    exactly beyond the open band, and the whole closed band maps to 0. -/
lemma band_score_iff (b : ℚ) (p n : ℤ) (x : ℚ) (hb : 0 < b) (hp0 : p ≠ 0)
    (hn0 : n ≠ 0) (hpn : p ≠ n) :
    ((if x > b then p else if x < -b then n else 0) = 0 ↔ |x| ≤ b)
    ∧ ((if x > b then p else if x < -b then n else 0) = p ↔ b < x)
    ∧ ((if x > b then p else if x < -b then n else 0) = n ↔ x < -b) := by
  rcases lt_or_le b x with h | h
  · rw [if_pos (show x > b from h)]
    refine ⟨iff_of_false hp0 ?_, iff_of_true rfl h, iff_of_false hpn ?_⟩
    · intro hh
      rw [abs_le] at hh
      linarith [hh.2]
    · intro hh
      linarith
  · rw [if_neg (not_lt.mpr h)]
    rcases lt_or_le x (-b) with h2 | h2
    · rw [if_pos h2]
      refine ⟨iff_of_false hn0 ?_, iff_of_false (fun hh => hpn hh.symm) ?_,
        iff_of_true rfl h2⟩
      · intro hh
        rw [abs_le] at hh
        linarith [hh.1]
      · intro hh
        linarith
    · rw [if_neg (not_lt.mpr h2)]
      refine ⟨iff_of_true rfl (abs_le.mpr ⟨h2, h⟩),
        iff_of_false (fun hh => hp0 hh.symm) ?_,
        iff_of_false (fun hh => hn0 hh.symm) ?_⟩
      · intro hh
        linarith
      · intro hh
        linarith

lemma us_points_bounds (x : ℚ) :
    -1 ≤ get_us_individual_points x ∧ get_us_individual_points x ≤ 1 := by
  unfold get_us_individual_points
  split_ifs <;> omega

lemma asian_points_bounds (x : ℚ) :
    -1 ≤ get_asian_individual_points x ∧ get_asian_individual_points x ≤ 1 := by
  unfold get_asian_individual_points
  split_ifs <;> omega

lemma india_vix_points_bounds (x : ℚ) :
    -2 ≤ india_vix_points x ∧ india_vix_points x ≤ 1 := by
  unfold india_vix_points
  split_ifs <;> omega

lemma cboe_vix_points_bounds (x : ℚ) :
    -1 ≤ cboe_vix_points x ∧ cboe_vix_points x ≤ 1 := by
  unfold cboe_vix_points
  split_ifs <;> omega

lemma pcr_points_bounds (x : ℚ) : -1 ≤ pcr_points x ∧ pcr_points x ≤ 1 := by
  unfold pcr_points
  split_ifs <;> omega

lemma fii_dii_points_bounds (x : ℚ) (b : Bool) :
    -1 ≤ fii_dii_points x b ∧ fii_dii_points x b ≤ 1 := by
  unfold fii_dii_points
  split_ifs <;> omega

lemma crude_oil_points_bounds (x : ℚ) :
    -1 ≤ crude_oil_points x ∧ crude_oil_points x ≤ 1 := by
  unfold crude_oil_points
  split_ifs <;> omega

lemma gold_points_bounds (x : ℚ) : -1 ≤ gold_points x ∧ gold_points x ≤ 1 := by
  unfold gold_points
  split_ifs <;> omega

lemma usd_inr_fx_points_bounds (x : ℚ) :
    -1 ≤ usd_inr_fx_points x ∧ usd_inr_fx_points x ≤ 1 := by
  unfold usd_inr_fx_points
  split_ifs <;> omega

lemma opening_pts_bounds (r g : ℚ) :
    -2 ≤ (classify_market_opening r g).2 ∧ (classify_market_opening r g).2 ≤ 2 := by
  unfold classify_market_opening
  split_ifs <;> norm_num

/-- C2: for every indicative value, the opening classifier with a reference of
    exactly 0 returns the sentinel result ("Data Error", 0 points); the
    division branch is never reached. -/
theorem classify_zero_reference_sentinel (g : ℚ) :
    classify_market_opening 0 g = ("Data Error", 0) := by
  simp [classify_market_opening]

/-- C3: for every nonzero reference, the opening classifier buckets the
    percentage change `(indicative − reference) / reference × 100` into the
    five bands with the 0.2/0.75 threshold pair: `|pct| < 0.2` is flat (0
    points), `0.2 ≤ |pct| ≤ 0.75` is an ordinary gap (±1 by the sign of the
    change), and `|pct| > 0.75` is a huge gap (±2 by the sign of the change). -/
theorem classify_bands (ref ind : ℚ) (h : ref ≠ 0) :
    (|pct_change ref ind| < 0.2 →
      classify_market_opening ref ind = ("Flat Opening", 0))
    ∧ (0.2 ≤ |pct_change ref ind| → |pct_change ref ind| ≤ 0.75 →
      classify_market_opening ref ind
        = if pct_change ref ind > 0 then ("Gap Up Opening", 1)
          else ("Gap Down Opening", -1))
    ∧ (0.75 < |pct_change ref ind| →
      classify_market_opening ref ind
        = if pct_change ref ind > 0 then ("Huge Gap Up Opening", 2)
          else ("Huge Gap Down Opening", -2)) := by
  unfold classify_market_opening
  rw [if_neg h]
  refine ⟨fun hf => ?_, fun h1 h2 => ?_, fun h3 => ?_⟩
  · rw [if_pos hf]
  · rw [if_neg (not_lt.mpr h1), if_pos h2]
  · rw [if_neg (not_lt.mpr (by linarith)), if_neg (not_le.mpr h3)]

/-- Witness for C3 at reference 22000 and indicative 22100: the gap is
    5/11 ≈ 0.45%, which falls in the ordinary-gap band, so the result is
    ("Gap Up Opening", 1). -/
theorem classify_bands_witness :
    classify_market_opening 22000 22100 = ("Gap Up Opening", 1) := by
  have habs : |pct_change 22000 22100| = 5 / 11 := by
    norm_num [pct_change, abs_of_nonneg]
  have h := (classify_bands 22000 22100 (by norm_num)).2.1
    (by rw [habs]; norm_num) (by rw [habs]; norm_num)
  rw [h, if_pos (show pct_change 22000 22100 > 0 by norm_num [pct_change])]

/-- C4: the Put/Call ratio rule is the non-monotonic five-band table with a
    zero special case: 0 at 0 (missing data), +1 above 1.7, −1 on (1.3, 1.7],
    0 on [0.7, 1.3], +1 on [0.5, 0.7), and −1 below 0.5 (for nonzero input). -/
theorem pcr_rule (v : ℚ) :
    (v = 0 → pcr_points v = 0)
    ∧ (v > 1.7 → pcr_points v = 1)
    ∧ (1.3 < v → v ≤ 1.7 → pcr_points v = -1)
    ∧ (0.7 ≤ v → v ≤ 1.3 → pcr_points v = 0)
    ∧ (0.5 ≤ v → v < 0.7 → pcr_points v = 1)
    ∧ (v ≠ 0 → v < 0.5 → pcr_points v = -1) := by
  refine ⟨fun ha => ?_, fun ha => ?_, fun ha hb => ?_, fun ha hb => ?_,
    fun ha hb => ?_, fun ha hb => ?_⟩ <;> unfold pcr_points
  · rw [if_pos ha]
  · rw [if_neg (show ¬v = 0 by intro h0; rw [h0] at ha; norm_num at ha),
      if_pos ha]
  · rw [if_neg (show ¬v = 0 by intro h0; rw [h0] at ha; norm_num at ha),
      if_neg (not_lt.mpr hb), if_pos ⟨ha, hb⟩]
  · rw [if_neg (show ¬v = 0 by intro h0; rw [h0] at ha; norm_num at ha),
      if_neg (show ¬v > 1.7 by intro hc; linarith),
      if_neg (show ¬(1.3 < v ∧ v ≤ 1.7) by intro hc; linarith [hc.1]),
      if_pos ⟨ha, hb⟩]
  · rw [if_neg (show ¬v = 0 by intro h0; rw [h0] at ha; norm_num at ha),
      if_neg (show ¬v > 1.7 by intro hc; linarith),
      if_neg (show ¬(1.3 < v ∧ v ≤ 1.7) by intro hc; linarith [hc.1]),
      if_neg (show ¬(0.7 ≤ v ∧ v ≤ 1.3) by intro hc; linarith [hc.1]),
      if_pos ⟨ha, hb⟩]
  · rw [if_neg ha,
      if_neg (show ¬v > 1.7 by intro hc; linarith),
      if_neg (show ¬(1.3 < v ∧ v ≤ 1.7) by intro hc; linarith [hc.1]),
      if_neg (show ¬(0.7 ≤ v ∧ v ≤ 1.3) by intro hc; linarith [hc.1]),
      if_neg (show ¬(0.5 ≤ v ∧ v < 0.7) by intro hc; linarith [hc.1]),
      if_pos hb]

/-- Witness for C4: pcr_points 1.8 = +1, pcr_points 0.3 = −1, pcr_points 1 = 0,
    obtained from the band theorem at those inputs. -/
theorem pcr_rule_witness :
    pcr_points 1.8 = 1 ∧ pcr_points 0.3 = -1 ∧ pcr_points 1 = 0 :=
  ⟨(pcr_rule 1.8).2.1 (by norm_num),
    (pcr_rule 0.3).2.2.2.2.2 (by norm_num) (by norm_num),
    (pcr_rule 1).2.2.2.1 (by norm_num) (by norm_num)⟩

/-- C5: the India VIX rule special-cases zero as missing data (0 points),
    scores −2 above level 22, +1 below level 14 (for nonzero levels), and 0 on
    the neutral range [14, 22]. -/
theorem india_vix_rule (v : ℚ) :
    (v = 0 → india_vix_points v = 0)
    ∧ (v > 22 → india_vix_points v = -2)
    ∧ (v ≠ 0 → v < 14 → india_vix_points v = 1)
    ∧ (14 ≤ v → v ≤ 22 → india_vix_points v = 0) := by
  refine ⟨fun ha => ?_, fun ha => ?_, fun ha hb => ?_, fun ha hb => ?_⟩ <;>
    unfold india_vix_points
  · rw [if_pos ha]
  · rw [if_neg (show ¬v = 0 by intro h0; rw [h0] at ha; norm_num at ha),
      if_pos ha]
  · rw [if_neg ha, if_neg (show ¬v > 22 by intro hc; linarith), if_pos hb]
  · rw [if_neg (show ¬v = 0 by intro h0; rw [h0] at ha; norm_num at ha),
      if_neg (not_lt.mpr hb), if_neg (not_lt.mpr ha)]

/-- Witness for C5: a level of exactly 0 scores 0 (not the +1 of the ordinary
    below-14 comparison), 23 scores −2, 5 scores +1, 15 scores 0. -/
theorem india_vix_rule_witness :
    india_vix_points 0 = 0 ∧ india_vix_points 23 = -2
    ∧ india_vix_points 5 = 1 ∧ india_vix_points 15 = 0 :=
  ⟨(india_vix_rule 0).1 rfl,
    (india_vix_rule 23).2.1 (by norm_num),
    (india_vix_rule 5).2.2.1 (by norm_num) (by norm_num),
    (india_vix_rule 15).2.2.2 (by norm_num) (by norm_num)⟩

/-- Lookup table sending each sentiment label to its scenario-probability
    triple, written from the specification's statement that the label fully
    determines the triple. -/
def probs_for_label (label : String) : ScenarioProbs :=
  if label = "Strongly Bullish" then ⟨70, 20, 10⟩
  else if label = "Mildly Bullish" then ⟨55, 30, 15⟩
  else if label = "Strongly Bearish" then ⟨10, 20, 70⟩
  else if label = "Mildly Bearish" then ⟨15, 30, 55⟩
  else ⟨33, 34, 33⟩

/-- C6: for every composite score the scenario-probability triple sums to
    exactly 100, it is a function of the sentiment label alone (the two
    functions use the same ≥6 / ≥2 / ≤−6 / ≤−2 bands), and the label is
    "Neutral / Range-bound" exactly when the triple is (33, 34, 33). -/
theorem scenario_probs_sum_and_bands (s : ℤ) :
    ((scenario_probs s).up + (scenario_probs s).side + (scenario_probs s).down = 100)
    ∧ scenario_probs s = probs_for_label (aggregate_sentiment s)
    ∧ (aggregate_sentiment s = "Neutral / Range-bound"
        ↔ scenario_probs s = ⟨33, 34, 33⟩) := by
  unfold scenario_probs aggregate_sentiment probs_for_label
  split_ifs <;> simp_all

/-- C7: end-to-end on the neutral submission (reference 22000, indicative
    22100, every other signal 0): the spot composite score is 1, which is
    below the Mildly Bullish cutoff of 2, so the label is
    "Neutral / Range-bound" and the probabilities are Up 33 / Side 34 / Down 33. -/
theorem end_to_end_neutral :
    spot_final_score neutralInput = 1
    ∧ aggregate_sentiment (spot_final_score neutralInput) = "Neutral / Range-bound"
    ∧ scenario_probs (spot_final_score neutralInput) = ⟨33, 34, 33⟩ := by
  have h : spot_final_score neutralInput = 1 := by
    norm_num [spot_final_score, spot_opening, classify_market_opening, pct_change,
      pts_common_factors, get_us_individual_points, get_asian_individual_points,
      gold_points, cboe_vix_points, india_vix_points, pcr_points, fii_dii_points,
      crude_oil_points, usd_inr_fx_points, neutralInput, abs_of_nonneg]
  refine ⟨h, ?_, ?_⟩ <;> rw [h] <;> simp [aggregate_sentiment, scenario_probs]

/-- C8: every symmetric-neutral-band scorer (US and Asian index change ±0.2,
    crude oil ±1.5, gold ±1.0, USD/INR ±0.25) uses strict inequalities: the
    non-zero point (sign-inverted for crude, gold and FX) is returned exactly
    when the input strictly exceeds the band, the whole closed band |x| ≤ b
    scores 0, and in particular both band endpoints score 0. -/
theorem symmetric_band_rules :
    (∀ x : ℚ,
      (get_us_individual_points x = 0 ↔ |x| ≤ 0.2)
      ∧ (get_us_individual_points x = 1 ↔ 0.2 < x)
      ∧ (get_us_individual_points x = -1 ↔ x < -0.2)
      ∧ (get_asian_individual_points x = 0 ↔ |x| ≤ 0.2)
      ∧ (get_asian_individual_points x = 1 ↔ 0.2 < x)
      ∧ (get_asian_individual_points x = -1 ↔ x < -0.2)
      ∧ (crude_oil_points x = 0 ↔ |x| ≤ 1.5)
      ∧ (crude_oil_points x = -1 ↔ 1.5 < x)
      ∧ (crude_oil_points x = 1 ↔ x < -1.5)
      ∧ (gold_points x = 0 ↔ |x| ≤ 1.0)
      ∧ (gold_points x = -1 ↔ 1.0 < x)
      ∧ (gold_points x = 1 ↔ x < -1.0)
      ∧ (usd_inr_fx_points x = 0 ↔ |x| ≤ 0.25)
      ∧ (usd_inr_fx_points x = -1 ↔ 0.25 < x)
      ∧ (usd_inr_fx_points x = 1 ↔ x < -0.25))
    ∧ get_us_individual_points 0.2 = 0 ∧ get_us_individual_points (-0.2) = 0
    ∧ get_asian_individual_points 0.2 = 0 ∧ get_asian_individual_points (-0.2) = 0
    ∧ crude_oil_points 1.5 = 0 ∧ crude_oil_points (-1.5) = 0
    ∧ gold_points 1.0 = 0 ∧ gold_points (-1.0) = 0
    ∧ usd_inr_fx_points 0.25 = 0 ∧ usd_inr_fx_points (-0.25) = 0 := by
  constructor
  · intro x
    have hus := band_score_iff 0.2 1 (-1) x (by norm_num) (by decide) (by decide)
      (by decide)
    have hcr := band_score_iff 1.5 (-1) 1 x (by norm_num) (by decide) (by decide)
      (by decide)
    have hgd := band_score_iff 1.0 (-1) 1 x (by norm_num) (by decide) (by decide)
      (by decide)
    have hfx := band_score_iff 0.25 (-1) 1 x (by norm_num) (by decide) (by decide)
      (by decide)
    exact ⟨hus.1, hus.2.1, hus.2.2, hus.1, hus.2.1, hus.2.2,
      hcr.1, hcr.2.1, hcr.2.2, hgd.1, hgd.2.1, hgd.2.2,
      hfx.1, hfx.2.1, hfx.2.2⟩
  · norm_num [get_us_individual_points, get_asian_individual_points,
      crude_oil_points, gold_points, usd_inr_fx_points]

/-- C9: on any submission satisfying the bear-trap condition (FII net flow
    below −750 and PCR below 0.7) but not the high-reward condition, exactly
    one of the three special-condition flags is true: the bear-trap flag
    holds, the high-reward flag is false by hypothesis, and the
    oversold-bounce flag is impossible because PCR < 0.7 excludes PCR > 1.7. -/
theorem bear_trap_single_flag (inp : Input)
    (hfii : inp.fii_net_crores < -750) (hpcr : inp.nifty_pcr_value < 0.7)
    (hnohr : ¬ dii_buying_high_vix inp) :
    fii_selling_low_pcr inp ∧ ¬ dii_buying_high_vix inp
    ∧ ¬ pcr_high_vix_high inp ∧ flagCount inp = 1 := by
  have hf : fii_selling_low_pcr inp := ⟨hfii, hpcr⟩
  have hp : ¬ pcr_high_vix_high inp := by
    intro hc
    have := hc.1
    simp only [pcr_high_vix_high] at hc
    linarith [hc.1]
  refine ⟨hf, hnohr, hp, ?_⟩
  unfold flagCount
  rw [if_neg hnohr, if_pos hf, if_neg hp]

/-- Witness for C9 at the concrete bear-trap submission (FII −1000, PCR 0.5,
    DII 0, India VIX 0): only the bear-trap flag is set. -/
theorem bear_trap_single_flag_witness :
    fii_selling_low_pcr bearTrapInput ∧ ¬ dii_buying_high_vix bearTrapInput
    ∧ ¬ pcr_high_vix_high bearTrapInput ∧ flagCount bearTrapInput = 1 :=
  bear_trap_single_flag bearTrapInput (by norm_num [bearTrapInput])
    (by norm_num [bearTrapInput])
    (by norm_num [dii_buying_high_vix, bearTrapInput])

/-- C10: for every submission with a nonzero spot reference the spot composite
    score lies in the integer interval [−16, 15]; −16 is attained (opening −2,
    India VIX −2 and twelve further −1 contributions) and the maximum is 15,
    not 16, because the India VIX rule contributes at most +1. -/
theorem spot_score_range :
    (∀ inp : Input, inp.nifty_prev_close ≠ 0 →
      -16 ≤ spot_final_score inp ∧ spot_final_score inp ≤ 15)
    ∧ spot_final_score minInput = -16 ∧ spot_final_score maxInput = 15 := by
  refine ⟨fun inp _ => ?_, ?_, ?_⟩
  · have h1 := us_points_bounds inp.dji_change_pct
    have h2 := us_points_bounds inp.sp500_change_pct
    have h3 := us_points_bounds inp.nasdaq_change_pct
    have h4 := asian_points_bounds inp.nikkei_change_pct
    have h5 := asian_points_bounds inp.hangseng_change_pct
    have h6 := gold_points_bounds inp.gold_change_pct
    have h7 := cboe_vix_points_bounds inp.cboe_vix_change_pct
    have h8 := india_vix_points_bounds inp.india_vix_level
    have h9 := pcr_points_bounds inp.nifty_pcr_value
    have h10 := fii_dii_points_bounds inp.fii_net_crores true
    have h11 := fii_dii_points_bounds inp.dii_net_crores false
    have h12 := crude_oil_points_bounds inp.crude_oil_change_pct
    have h13 := usd_inr_fx_points_bounds inp.usd_inr_change_pct
    have h14 := opening_pts_bounds inp.nifty_prev_close inp.gift_nifty_current
    unfold spot_final_score spot_opening pts_common_factors
    omega
  · norm_num [spot_final_score, spot_opening, classify_market_opening, pct_change,
      pts_common_factors, get_us_individual_points, get_asian_individual_points,
      gold_points, cboe_vix_points, india_vix_points, pcr_points, fii_dii_points,
      crude_oil_points, usd_inr_fx_points, minInput, abs_of_nonneg, abs_of_nonpos]
  · norm_num [spot_final_score, spot_opening, classify_market_opening, pct_change,
      pts_common_factors, get_us_individual_points, get_asian_individual_points,
      gold_points, cboe_vix_points, india_vix_points, pcr_points, fii_dii_points,
      crude_oil_points, usd_inr_fx_points, maxInput, abs_of_nonneg, abs_of_nonpos]

/-- Witness for C10 at the neutral submission (spot reference 22000 ≠ 0): its
    spot composite score lies within [−16, 15]. -/
theorem spot_score_range_witness :
    -16 ≤ spot_final_score neutralInput ∧ spot_final_score neutralInput ≤ 15 :=
  spot_score_range.1 neutralInput (by norm_num [neutralInput])

/-- C1 counterexample: on the concrete submission with `nifty_prev_close = 0`
    (and every other signal neutral) the program still renders full sentiment
    reports: the spot report carries the "Data Error" opening tag together
    with a sentiment label, a composite score and a probability triple, and a
    futures report is rendered beside it. -/
theorem report_rendered_despite_zero_reference :
    renderedReports zeroRefInput =
      [⟨"Data Error", "Neutral / Range-bound", 0, ⟨33, 34, 33⟩⟩,
       ⟨"Gap Up Opening", "Neutral / Range-bound", 1, ⟨33, 34, 33⟩⟩] := by
  norm_num [renderedReports, spotReport, futuresReport, spot_opening,
    futures_opening, spot_final_score, futures_final_score,
    classify_market_opening, pct_change, pts_common_factors,
    get_us_individual_points, get_asian_individual_points, gold_points,
    cboe_vix_points, india_vix_points, pcr_points, fii_dii_points,
    crude_oil_points, usd_inr_fx_points, zeroRefInput, aggregate_sentiment,
    scenario_probs, abs_of_nonneg]
  decide

/-- C1 (amended): a zero spot reference is flagged only inside the report —
    the classifier returns the ("Data Error", 0) sentinel, yet report
    rendering is not suppressed: the rendered list is nonempty, it contains
    the spot report, that report carries the "Data Error" opening tag, and its
    composite score is still computed (0 opening points plus the common
    factor points). -/
theorem zero_reference_still_renders_report (inp : Input)
    (h : inp.nifty_prev_close = 0) :
    spot_opening inp = ("Data Error", 0)
    ∧ renderedReports inp ≠ []
    ∧ spotReport inp ∈ renderedReports inp
    ∧ (spotReport inp).tag_open = "Data Error"
    ∧ (spotReport inp).score = pts_common_factors inp := by
  have h1 : spot_opening inp = ("Data Error", 0) := by
    simp [spot_opening, classify_market_opening, h]
  refine ⟨h1, ?_, ?_, ?_, ?_⟩
  · unfold renderedReports
    split_ifs <;> simp
  · unfold renderedReports
    split_ifs <;> simp
  · simp [spotReport, h1]
  · simp [spotReport, spot_final_score, h1]

/-- Witness for the amended C1 at the concrete zero-reference submission. -/
theorem zero_reference_still_renders_report_witness :
    spot_opening zeroRefInput = ("Data Error", 0)
    ∧ renderedReports zeroRefInput ≠ []
    ∧ spotReport zeroRefInput ∈ renderedReports zeroRefInput
    ∧ (spotReport zeroRefInput).tag_open = "Data Error"
    ∧ (spotReport zeroRefInput).score = pts_common_factors zeroRefInput :=
  zero_reference_still_renders_report zeroRefInput (by norm_num [zeroRefInput])

end NiftySent
